import Mathlib

/-!
Verification development for the DeepCurrent analyser
(`src/DeepCurrent.py`).

Python strings are modelled as lists of characters (`Str`), so that
concatenation, trimming and substring search are explicit list
operations.  All definitions below are transcribed from the source
file; the `*Spec` definitions are the only ones written from the
specification's words, for comparison with their source counterparts.
-/

namespace DeepCurrent

/-- Python strings, modelled as lists of characters. -/
abbrev Str := List Char

/-- Characters removed by Python's `str.strip()` (ASCII whitespace:
space, tab, newline, carriage return, vertical tab, form feed). -/
def isPySpace (c : Char) : Bool :=
  c = ' ' || c = '\t' || c = '\n' || c = '\x0d' || c = '\x0b' || c = '\x0c'

/-- Python's `s.strip()`: drop leading and trailing whitespace. -/
def pyStrip (s : Str) : Str :=
  ((s.dropWhile isPySpace).reverse.dropWhile isPySpace).reverse

/-- Python's substring test `needle in hay`. -/
def containsSub (needle hay : Str) : Bool :=
  hay.tails.any (fun t => needle.isPrefixOf t)

/-- Source line 50: the fallback journey diagram constant. -/
def DEFAULT_JOURNEY_DIAGRAM : Str :=
  "flowchart TD\n    A[Default Diagram]\n".toList

/-- Source line 51: the fallback call diagram constant. -/
def DEFAULT_CALL_DIAGRAM : Str :=
  "flowchart TD\n    A[Default Diagram]\n".toList

/-- Source lines 140-142, `is_valid_mermaid`: strip the text, require it
to start with a recognised diagram root token, and require the sentinel
marker to be absent. -/
def is_valid_mermaid (diagram_text : Str) : Bool :=
  let stripped := pyStrip diagram_text
  (("flowchart TD".toList.isPrefixOf stripped)
      || ("sequenceDiagram".toList.isPrefixOf stripped))
    && !(containsSub "Default Diagram".toList stripped)

/-- The validity policy exactly as the specification words it: after
trimming surrounding whitespace the text begins with "flowchart TD" or
with "sequenceDiagram", and does not contain "Default Diagram". -/
def diagramValidSpec (p : Str) : Prop :=
  ("flowchart TD".toList <+: pyStrip p ∨ "sequenceDiagram".toList <+: pyStrip p)
    ∧ ¬ ("Default Diagram".toList <:+: pyStrip p)

/-! The Model Gateway (source lines 115-135, `call_llm`).  The network
is modelled as an oracle mapping (model identifier, prompt) to either a
transport error or an HTTP response carrying a status code and the
generated text extracted from the JSON body. -/

inductive LLMResult where
  | transportError : LLMResult
  | response (status : Nat) (text : Str) : LLMResult

/-- The external completion endpoint, as an oracle: model identifier and
prompt determine the outcome of the single synchronous request. -/
abbrev Gateway := Str → Str → LLMResult

/-- The two process-wide model selections (`ANALYSIS_MODEL`,
`QUERY_MODEL`, source lines 61-62 and 593-596). -/
structure Config where
  analysis_model : Str
  query_model : Str

/-- Source lines 115-135: on HTTP 200 return the response text stripped
of surrounding whitespace; on any other status or on a raised transport
exception return the empty string. -/
def call_llm (gw : Gateway) (model prompt : Str) : Str :=
  match gw model prompt with
  | LLMResult.transportError => []
  | LLMResult.response status text => if status = 200 then pyStrip text else []

/-! Prompt texts, transcribed from the source.  Each prompt is an
explicit concatenation of fixed literal chunks around the embedded
context, mirroring the Python f-strings. -/

/-- The sample Mermaid diagram embedded in the diagram prompts
(source lines 151-168, repeated at 185-202 and 259-276). -/
def SAMPLE_DIAGRAM : Str :=
  ("flowchart TD\n    Start[Start]\n        --> PrepareLoan[Prepare loan data]\n            --> Claim[Call claim function]\n            --> RedeemNote[Redeem note]\n        |\n        --> Repay_Loan[Prepare for repayment]\n            | Check if active\n                --> ForceRepay[Force repay]\n        |\n        | CalculateInterest[Calculate prorated interest]\n        | DeterminePrincipal[Calculate principal amount]\n        | ValidateRepayment[Check if enough to cover interest]\n            | If Not Enough--> Revert[Invalid transaction]\n        |\n        | DistributeFees[Fee calculation based on basis points]\n        --> Repay[Lender receives payment]\n    End[End of process]\n").toList

/-- The "Smart Contract Code" section header used by the report and
regeneration prompts. -/
def SC_HDR : Str := "Smart Contract Code:\n---------------------\n".toList

/-- The dashed line terminating an embedded code block. -/
def BLOCK_END : Str := "\n---------------------\n".toList

/-- Source lines 215-223: the Phase 1 prompt around the contract code. -/
def generate_functions_report_prompt (contract_content : Str) : Str :=
  ("Phase 1: Generate a detailed functions report for the following smart contract code. List every function with its parameters, visibility, and any modifiers, and note potential vulnerabilities or manipulation opportunities. Return the complete report as plain text.\n\n").toList
    ++ SC_HDR ++ contract_content ++ BLOCK_END

/-- Source lines 234-241: the Phase 2 prompt around the contract code. -/
def generate_journey_report_prompt (contract_content : Str) : Str :=
  ("Phase 2: Generate a user journey for the following smart contract code. Provide a clear, plain-text description of the sequence and flow of the contract functions. Return the journey description as plain text.\n\n").toList
    ++ SC_HDR ++ contract_content ++ BLOCK_END

/-- Source lines 253-281: the Phase 3a prompt around the journey report. -/
def generate_journey_diagram_prompt (journey_report : Str) : Str :=
  ("Phase 3a: Based on the following user journey description, generate ONLY valid Mermaid diagram text using \x27flowchart TD\x27 that visually represents the flow. Your output MUST start with \x27flowchart TD\x27 and contain only diagram code. Do not include any extra commentary, quotes, or annotations in the node labels. Use the sample below as a guide:\n\nSample Diagram:\n---------------------\n").toList
    ++ SAMPLE_DIAGRAM
    ++ ("---------------------\n\nUser Journey Description:\n-------------------------\n").toList
    ++ journey_report ++ ("\n-------------------------\n").toList

/-- Source lines 296-303: the Phase 3b prompt around the functions report. -/
def generate_call_diagram_prompt (functions_report : Str) : Str :=
  ("Phase 3b: Based on the following functions report, generate ONLY valid Mermaid diagram text using \x27flowchart TD\x27 that represents the function call graph. Your output MUST start with \x27flowchart TD\x27 and contain only diagram code. Node labels must be simple with no extra symbols, quotes, or annotations. Use proper diamond notation for conditions if needed.\n\nFunctions Report:\n-----------------\n").toList
    ++ functions_report ++ ("\n-----------------\n").toList

/-- Source lines 145-174: the repair-time journey diagram prompt, built
around the raw contract code. -/
def regenerate_journey_diagram_prompt (contract_content : Str) : Str :=
  ("Based on the following smart contract code, generate ONLY valid Mermaid diagram text using \x27flowchart TD\x27 that visually represents the user journey. Your output MUST start with \x27flowchart TD\x27 and include only diagram code. Do not include any extra commentary, quotes, or annotations. Use the sample below as a guide:\n\nSample Diagram:\n---------------------\n").toList
    ++ SAMPLE_DIAGRAM ++ ("---------------------\n\n").toList
    ++ SC_HDR ++ contract_content ++ BLOCK_END

/-- Source lines 178-207: the repair-time call diagram prompt, built
around the raw contract code. -/
def regenerate_call_diagram_prompt (contract_content : Str) : Str :=
  ("Based on the following smart contract code, generate ONLY valid Mermaid diagram text using \x27flowchart TD\x27 that represents the function call graph. Your output MUST start with \x27flowchart TD\x27 and include only diagram code. Node labels must be simple with no extra symbols, quotes, or annotations, and use proper diamond notation for conditions if needed. Use the sample below as a guide:\n\nSample Diagram:\n---------------------\n").toList
    ++ SAMPLE_DIAGRAM ++ ("---------------------\n\n").toList
    ++ SC_HDR ++ contract_content ++ BLOCK_END

/-- Source lines 144-175: regenerate the journey diagram from the raw
contract code with the analysis model. -/
def regenerate_journey_diagram_from_contract (gw : Gateway) (cfg : Config)
    (contract_content : Str) : Str :=
  call_llm gw cfg.analysis_model (regenerate_journey_diagram_prompt contract_content)

/-- Source lines 177-209: regenerate the call diagram from the raw
contract code with the analysis model. -/
def regenerate_call_diagram_from_contract (gw : Gateway) (cfg : Config)
    (contract_content : Str) : Str :=
  call_llm gw cfg.analysis_model (regenerate_call_diagram_prompt contract_content)

/-- Source lines 214-228, `generate_functions_report`: invoke the model
and fall back to the sentinel when the output is empty. -/
def generate_functions_report (gw : Gateway) (cfg : Config)
    (contract_content : Str) : Str :=
  let output := call_llm gw cfg.analysis_model (generate_functions_report_prompt contract_content)
  if output = [] then "[No functions report produced]".toList else output

/-- Source lines 233-247, `generate_journey_report`: invoke the model
and fall back to the sentinel when the output is empty. -/
def generate_journey_report (gw : Gateway) (cfg : Config)
    (contract_content : Str) : Str :=
  let output := call_llm gw cfg.analysis_model (generate_journey_report_prompt contract_content)
  if output = [] then "[No journey report produced]".toList else output

/-- Source lines 252-290, `generate_journey_diagram`: invoke the model
on the journey report; if the output fails validation substitute the
default diagram.  The second component records whether the fallback
notice was printed (source line 289). -/
def generate_journey_diagram (gw : Gateway) (cfg : Config)
    (journey_report : Str) : Str × Bool :=
  let output := call_llm gw cfg.analysis_model (generate_journey_diagram_prompt journey_report)
  if is_valid_mermaid output then (output, false) else (DEFAULT_JOURNEY_DIAGRAM, true)

/-- Source lines 295-312, `generate_call_diagram`: invoke the model on
the functions report; if the output fails validation substitute the
default diagram.  The second component records whether the fallback
notice was printed (source line 311). -/
def generate_call_diagram (gw : Gateway) (cfg : Config)
    (functions_report : Str) : Str × Bool :=
  let output := call_llm gw cfg.analysis_model (generate_call_diagram_prompt functions_report)
  if is_valid_mermaid output then (output, false) else (DEFAULT_CALL_DIAGRAM, true)

/-! The Pipeline Orchestrator (source lines 543-584,
`process_contract`).  File writes and the database upsert are external
collaborators; the dataflow between phases and the assembled combined
report are modelled here.  The contract fingerprint written at source
line 550 is modelled separately as `contract_fingerprint` below. -/

/-- The four per-contract artifacts plus the combined final report
assembled by `process_contract`. -/
structure Artifacts where
  functions_report : Str
  journey_report : Str
  journey_diagram : Str
  call_diagram : Str
  final_report : Str

/-- Source lines 576-582: the combined report concatenating the four
artifacts under fixed section headers. -/
def final_report_text (base_name functions_report journey_report
    journey_diagram call_diagram : Str) : Str :=
  "# Final Analysis Report for ".toList ++ base_name
    ++ "\n\n## Functions Report\n\n".toList ++ functions_report
    ++ "\n\n## Journey Report\n\n".toList ++ journey_report
    ++ "\n\n## User Journey Diagram (Mermaid)\n\n".toList ++ journey_diagram
    ++ "\n\n## Function Call Diagram (Mermaid)\n\n".toList ++ call_diagram
    ++ "\n".toList

/-- Source lines 543-584, `process_contract`: abandon the contract when
no content was read (empty string, source lines 546-548), otherwise run
the four phases in order and assemble the final report.  `none` models
the early `return` with no artifacts produced. -/
def process_contract (gw : Gateway) (cfg : Config)
    (base_name content : Str) : Option Artifacts :=
  if content = [] then none
  else
    let functions_report := generate_functions_report gw cfg content
    let journey_report := generate_journey_report gw cfg content
    let journey_diagram := (generate_journey_diagram gw cfg journey_report).1
    let call_diagram := (generate_call_diagram gw cfg functions_report).1
    some {
      functions_report := functions_report
      journey_report := journey_report
      journey_diagram := journey_diagram
      call_diagram := call_diagram
      final_report := final_report_text base_name functions_report
        journey_report journey_diagram call_diagram }

/-! The Session/Repair Controller (source lines 391-438,
`check_and_regenerate_diagrams`).  The persisted session files and the
interactive answers are modelled explicitly; `none` for a diagram file
models a read failure (the `except` branches at lines 397-399 and
421-423 set the content to the empty string), and `none` for the
original contract file models `os.path.exists` returning false. -/

/-- The state visible to one `check_and_regenerate_diagrams` call: the
persisted journey and call diagram files, the persisted original
contract file, and the user's two regeneration answers (`true` models
answering "y"). -/
structure RepairEnv where
  jd_file : Option Str
  cd_file : Option Str
  sc_file : Option Str
  regen_jd_choice : Bool
  regen_cd_choice : Bool

/-- Source lines 394-399: the journey diagram text seen by the
integrity check — the stripped file content, or the empty string when
the read failed. -/
def jd_content (env : RepairEnv) : Str :=
  match env.jd_file with
  | some c => pyStrip c
  | none => []

/-- Source lines 418-423: the call diagram text seen by the integrity
check. -/
def cd_content (env : RepairEnv) : Str :=
  match env.cd_file with
  | some c => pyStrip c
  | none => []

/-- Source line 400: the journey diagram is offered for regeneration
exactly when the persisted payload fails `is_valid_mermaid`. -/
def journey_needs_regen (env : RepairEnv) : Bool :=
  !(is_valid_mermaid (jd_content env))

/-- Source line 424: the call diagram is offered for regeneration
exactly when the persisted payload fails `is_valid_mermaid`. -/
def call_needs_regen (env : RepairEnv) : Bool :=
  !(is_valid_mermaid (cd_content env))

/-- Source lines 391-438, `check_and_regenerate_diagrams`: the pair of
posterior file contents (journey diagram, call diagram).  A diagram is
rewritten only when its payload is invalid, the user answered "y", and
the original contract file exists; the regenerated text is then saved
as-is (source lines 414-415 and 437-438), with no further validation. -/
def check_and_regenerate_diagrams (gw : Gateway) (cfg : Config)
    (env : RepairEnv) : Option Str × Option Str :=
  let jd' :=
    if journey_needs_regen env && env.regen_jd_choice then
      match env.sc_file with
      | none => env.jd_file
      | some sc => some (regenerate_journey_diagram_from_contract gw cfg sc)
    else env.jd_file
  let cd' :=
    if call_needs_regen env && env.regen_cd_choice then
      match env.sc_file with
      | none => env.cd_file
      | some sc => some (regenerate_call_diagram_from_contract gw cfg sc)
    else env.cd_file
  (jd', cd')

/-! The ad-hoc query path (source lines 337-375, `query_report`).
The three context files are modelled as optional strings; `none` models
a failed read, replaced by the piece-specific placeholder. -/

/-- Source lines 358-370: the query prompt, concatenating the target
report, original code, journey diagram, call diagram and the user's
question under fixed section headers, in that order. -/
def query_prompt (report_content original_content journey_diagram
    call_diagram query : Str) : Str :=
  ("Based on the following materials:\n================ Report Content ================\n").toList
    ++ report_content
    ++ ("\n\n================ Original Code ================\n").toList
    ++ original_content
    ++ ("\n\n================ Journey Diagram ================\n").toList
    ++ journey_diagram
    ++ ("\n\n================ Call Diagram ================\n").toList
    ++ call_diagram
    ++ ("\n\nPlease answer the following query:\n").toList
    ++ query ++ ("\n").toList

/-- Source lines 337-375, `query_report`: substitute the
piece-specific placeholders for unreadable context files, invoke the
query model, and return its answer verbatim. -/
def query_report (gw : Gateway) (cfg : Config) (report_content : Str)
    (original journey_diagram call_diagram : Option Str) (query : Str) : Str :=
  let original_content := original.getD (("[Original code not available]").toList)
  let jd := journey_diagram.getD (("[Journey diagram not available]").toList)
  let cd := call_diagram.getD (("[Call diagram not available]").toList)
  call_llm gw cfg.query_model
    (query_prompt report_content original_content jd cd query)

/-! The contract fingerprint (source line 550):
`hashlib.sha256((filepath + content).encode()).hexdigest()`.
SHA-256 is implemented over byte lists, with 32-bit words as naturals
reduced modulo `2 ^ 32`. -/

/-- UTF-8 encoding of one character, as byte values (Python's
`str.encode()` applied to one code point). -/
def utf8Char (c : Char) : List Nat :=
  let n := c.toNat
  if n < 0x80 then [n]
  else if n < 0x800 then [0xC0 + n / 0x40, 0x80 + n % 0x40]
  else if n < 0x10000 then
    [0xE0 + n / 0x1000, 0x80 + n / 0x40 % 0x40, 0x80 + n % 0x40]
  else
    [0xF0 + n / 0x40000, 0x80 + n / 0x1000 % 0x40,
      0x80 + n / 0x40 % 0x40, 0x80 + n % 0x40]

/-- Python's `str.encode()`: the UTF-8 bytes of a string. -/
def utf8Encode (s : Str) : List Nat :=
  (s.map utf8Char).flatten

/-- Right rotation of a 32-bit word, arithmetically. -/
def rotr32 (n x : Nat) : Nat :=
  x / 2 ^ n + x % 2 ^ n * 2 ^ (32 - n)

/-- Addition modulo `2 ^ 32`. -/
def add32 (a b : Nat) : Nat := (a + b) % 2 ^ 32

/-- SHA-256 big sigma-0. -/
def bigSigma0 (x : Nat) : Nat := rotr32 2 x ^^^ rotr32 13 x ^^^ rotr32 22 x

/-- SHA-256 big sigma-1. -/
def bigSigma1 (x : Nat) : Nat := rotr32 6 x ^^^ rotr32 11 x ^^^ rotr32 25 x

/-- SHA-256 small sigma-0. -/
def smallSigma0 (x : Nat) : Nat := rotr32 7 x ^^^ rotr32 18 x ^^^ x / 2 ^ 3

/-- SHA-256 small sigma-1. -/
def smallSigma1 (x : Nat) : Nat := rotr32 17 x ^^^ rotr32 19 x ^^^ x / 2 ^ 10

/-- SHA-256 choice function. -/
def chFun (e f g : Nat) : Nat := (e &&& f) ^^^ (((2 ^ 32 - 1) ^^^ e) &&& g)

/-- SHA-256 majority function. -/
def majFun (a b c : Nat) : Nat := (a &&& b) ^^^ (a &&& c) ^^^ (b &&& c)

/-- SHA-256 padding: append `0x80`, zero bytes up to 56 mod 64, and the
big-endian 64-bit bit length. -/
def sha256Pad (msg : List Nat) : List Nat :=
  let L := msg.length
  let zeros := (64 - (L + 9) % 64) % 64
  let bitLen := 8 * L
  msg ++ [0x80] ++ List.replicate zeros 0
    ++ [bitLen / 2 ^ 56 % 256, bitLen / 2 ^ 48 % 256, bitLen / 2 ^ 40 % 256,
        bitLen / 2 ^ 32 % 256, bitLen / 2 ^ 24 % 256, bitLen / 2 ^ 16 % 256,
        bitLen / 2 ^ 8 % 256, bitLen % 256]

/-- Split a byte list into 64-byte blocks, structurally recursive on a
fuel bound so that it reduces definitionally; each step consumes at
least one element, so `l.length` fuel always suffices. -/
def chunks64Aux : Nat → List Nat → List (List Nat)
  | 0, _ => []
  | _ + 1, [] => []
  | fuel + 1, l => l.take 64 :: chunks64Aux fuel (l.drop 64)

/-- Split a byte list into 64-byte blocks. -/
def chunks64 (l : List Nat) : List (List Nat) :=
  chunks64Aux l.length l

/-- Big-endian 32-bit words from a byte list. -/
def bytesToWords : List Nat → List Nat
  | b0 :: b1 :: b2 :: b3 :: rest =>
    (b0 * 2 ^ 24 + b1 * 2 ^ 16 + b2 * 2 ^ 8 + b3) :: bytesToWords rest
  | _ => []

/-- One message-schedule extension step on the reversed word list
(most recent word first). -/
def scheduleStep (rws : List Nat) : List Nat :=
  add32 (add32 (smallSigma1 (rws.getD 1 0)) (rws.getD 6 0))
    (add32 (smallSigma0 (rws.getD 14 0)) (rws.getD 15 0)) :: rws

/-- Iterate the message-schedule extension. -/
def extendSchedule : Nat → List Nat → List Nat
  | 0, rws => rws
  | n + 1, rws => extendSchedule n (scheduleStep rws)

/-- The 64-entry message schedule of one block. -/
def messageSchedule (block : List Nat) : List Nat :=
  (extendSchedule 48 (bytesToWords block).reverse).reverse

/-- The eight 32-bit working variables of the compression function. -/
structure Hash8 where
  a : Nat
  b : Nat
  c : Nat
  d : Nat
  e : Nat
  f : Nat
  g : Nat
  h : Nat

/-- One round of the SHA-256 compression function. -/
def compressStep (st : Hash8) (kw : Nat × Nat) : Hash8 :=
  let t1 := add32 st.h (add32 (bigSigma1 st.e)
    (add32 (chFun st.e st.f st.g) (add32 kw.1 kw.2)))
  let t2 := add32 (bigSigma0 st.a) (majFun st.a st.b st.c)
  Hash8.mk (add32 t1 t2) st.a st.b st.c (add32 st.d t1) st.e st.f st.g

/-- The 64 SHA-256 round constants (FIPS 180-4, written in decimal). -/
def K_WORDS : List Nat :=
  [1116352408, 1899447441, 3049323471, 3921009573,
   961987163, 1508970993, 2453635748, 2870763221,
   3624381080, 310598401, 607225278, 1426881987,
   1925078388, 2162078206, 2614888103, 3248222580,
   3835390401, 4022224774, 264347078, 604807628,
   770255983, 1249150122, 1555081692, 1996064986,
   2554220882, 2821834349, 2952996808, 3210313671,
   3336571891, 3584528711, 113926993, 338241895,
   666307205, 773529912, 1294757372, 1396182291,
   1695183700, 1986661051, 2177026350, 2456956037,
   2730485921, 2820302411, 3259730800, 3345764771,
   3516065817, 3600352804, 4094571909, 275423344,
   430227734, 506948616, 659060556, 883997877,
   958139571, 1322822218, 1537002063, 1747873779,
   1955562222, 2024104815, 2227730452, 2361852424,
   2428436474, 2756734187, 3204031479, 3329325298]

/-- Process one 64-byte block. -/
def compressBlock (st : Hash8) (block : List Nat) : Hash8 :=
  let w := messageSchedule block
  let fin := (K_WORDS.zip w).foldl compressStep st
  Hash8.mk (add32 st.a fin.a) (add32 st.b fin.b) (add32 st.c fin.c)
    (add32 st.d fin.d) (add32 st.e fin.e) (add32 st.f fin.f)
    (add32 st.g fin.g) (add32 st.h fin.h)

/-- The SHA-256 initial hash value (FIPS 180-4, written in decimal). -/
def H_INIT : Hash8 :=
  Hash8.mk 1779033703 3144134277 1013904242 2773480762
    1359893119 2600822924 528734635 1541459225

/-- The eight 32-bit words of the SHA-256 digest of a byte message. -/
def sha256words (msg : List Nat) : List Nat :=
  let fin := (chunks64 (sha256Pad msg)).foldl compressBlock H_INIT
  [fin.a, fin.b, fin.c, fin.d, fin.e, fin.f, fin.g, fin.h]

/-- Lower-case hexadecimal digit. -/
def hexChar (n : Nat) : Char :=
  if n < 10 then Char.ofNat (48 + n) else Char.ofNat (87 + n)

/-- Two hexadecimal digits of a byte. -/
def byteHex (b : Nat) : List Char := [hexChar (b / 16), hexChar (b % 16)]

/-- Eight hexadecimal digits of a 32-bit word, big-endian. -/
def wordHex (w : Nat) : List Char :=
  byteHex (w / 2 ^ 24 % 256) ++ byteHex (w / 2 ^ 16 % 256)
    ++ byteHex (w / 2 ^ 8 % 256) ++ byteHex (w % 256)

/-- Python's `hexdigest()` over the digest words. -/
def hexdigest (words : List Nat) : Str :=
  (words.map wordHex).flatten

/-- Source line 550: the contract fingerprint
`sha256((filepath + content).encode()).hexdigest()`. -/
def contract_fingerprint (filepath content : Str) : Str :=
  hexdigest (sha256words (utf8Encode (filepath ++ content)))

/-- All eight working variables below `2 ^ 32`. -/
def Bounded32 (st : Hash8) : Prop :=
  st.a < 2 ^ 32 ∧ st.b < 2 ^ 32 ∧ st.c < 2 ^ 32 ∧ st.d < 2 ^ 32
    ∧ st.e < 2 ^ 32 ∧ st.f < 2 ^ 32 ∧ st.g < 2 ^ 32 ∧ st.h < 2 ^ 32

/-- Base-`2 ^ 32` value of a word list (injective on bounded lists of a
fixed length; used to place digests in a finite type). -/
def wordsVal : List Nat → Nat
  | [] => 0
  | w :: ws => w + 2 ^ 32 * wordsVal ws

/-- Digest of path `p` followed by content `c`, as an element of the
finite digest space (the final reduction is the identity on digests,
whose words are all below `2 ^ 32`). -/
def sha256FinOf (c p : Str) : Fin ((2 ^ 32) ^ 8) :=
  ⟨wordsVal (sha256words (utf8Encode (p ++ c))) % (2 ^ 32) ^ 8,
    Nat.mod_lt _ (by norm_num)⟩

/-! Bridge lemmas between the executable string operations and their
propositional counterparts. -/

theorem containsSub_iff (needle hay : Str) :
    containsSub needle hay = true ↔ needle <:+: hay := by
  unfold containsSub
  rw [List.any_eq_true]
  constructor
  · rintro ⟨t, ht, hpre⟩
    rw [List.mem_tails] at ht
    rw [ List.isPrefixOf_iff_prefix] at hpre
    obtain ⟨u, hu⟩ := hpre
    obtain ⟨s, hs⟩ := ht
    exact ⟨s, u, by rw [← hs, ← hu]; simp⟩
  · rintro ⟨s, u, h⟩
    refine ⟨needle ++ u, ?_, ?_⟩
    · rw [List.mem_tails]
      exact ⟨s, by rw [← h]; simp⟩
    · rw [ List.isPrefixOf_iff_prefix]
      exact ⟨u, rfl⟩

theorem isInfix_self_append (l t : Str) : l <:+: l ++ t :=
  ⟨[], t, by simp⟩

theorem isInfix_append_left (s : Str) {l t : Str} (h : l <:+: t) :
    l <:+: s ++ t := by
  obtain ⟨u, v, rfl⟩ := h
  exact ⟨s ++ u, v, by simp [List.append_assoc]⟩

theorem pyStrip_of_all_space (p : Str) (h : ∀ c ∈ p, isPySpace c) :
    pyStrip p = [] := by
  unfold pyStrip
  rw [List.dropWhile_eq_nil_iff.mpr h]
  simp

/-! Arithmetic facts about the SHA-256 digest, needed to place digests
in a finite type. -/

theorem add32_lt (a b : Nat) : add32 a b < 2 ^ 32 :=
  Nat.mod_lt _ (by norm_num)

theorem compressBlock_bounded (st : Hash8) (block : List Nat) :
    Bounded32 (compressBlock st block) :=
  ⟨add32_lt _ _, add32_lt _ _, add32_lt _ _, add32_lt _ _,
    add32_lt _ _, add32_lt _ _, add32_lt _ _, add32_lt _ _⟩

theorem foldl_compress_bounded (bs : List (List Nat)) (st : Hash8)
    (hst : Bounded32 st) : Bounded32 (bs.foldl compressBlock st) := by
  induction bs generalizing st with
  | nil => exact hst
  | cons b bs ih => exact ih _ (compressBlock_bounded _ _)

theorem H_INIT_bounded : Bounded32 H_INIT := by
  refine ⟨?_, ?_, ?_, ?_, ?_, ?_, ?_, ?_⟩ <;> norm_num [H_INIT]

theorem sha256words_mem_lt (msg : List Nat) :
    ∀ x ∈ sha256words msg, x < 2 ^ 32 := by
  have hb := foldl_compress_bounded (chunks64 (sha256Pad msg)) H_INIT H_INIT_bounded
  intro x hx
  unfold sha256words at hx
  simp only [List.mem_cons, List.not_mem_nil, or_false] at hx
  obtain ⟨h1, h2, h3, h4, h5, h6, h7, h8⟩ := hb
  rcases hx with rfl | rfl | rfl | rfl | rfl | rfl | rfl | rfl <;> assumption

theorem sha256words_length (msg : List Nat) :
    (sha256words msg).length = 8 := rfl

theorem wordsVal_lt (l : List Nat) (hb : ∀ x ∈ l, x < 2 ^ 32) :
    wordsVal l < (2 ^ 32) ^ l.length := by
  induction l with
  | nil => simp [wordsVal]
  | cons w ws ih =>
    have hw : w < 2 ^ 32 := hb w (List.mem_cons_self _ _)
    have hws := ih (fun x hx => hb x (List.mem_cons_of_mem _ hx))
    have hpow : (2 ^ 32 : Nat) ^ (w :: ws).length
        = (2 ^ 32 : Nat) ^ ws.length * 2 ^ 32 := by
      rw [List.length_cons, pow_succ]
    rw [hpow]
    show w + 2 ^ 32 * wordsVal ws < (2 ^ 32 : Nat) ^ ws.length * 2 ^ 32
    set T := (2 ^ 32 : Nat) ^ ws.length with hT
    omega

theorem wordsVal_inj : ∀ l₁ l₂ : List Nat, l₁.length = l₂.length →
    (∀ x ∈ l₁, x < 2 ^ 32) → (∀ x ∈ l₂, x < 2 ^ 32) →
    wordsVal l₁ = wordsVal l₂ → l₁ = l₂ := by
  intro l₁
  induction l₁ with
  | nil =>
    intro l₂ hlen _ _ _
    cases l₂ with
    | nil => rfl
    | cons u us => simp at hlen
  | cons w ws ih =>
    intro l₂ hlen hb1 hb2 hv
    cases l₂ with
    | nil => simp at hlen
    | cons u us =>
      have hw : w < 2 ^ 32 := hb1 w (List.mem_cons_self _ _)
      have hu : u < 2 ^ 32 := hb2 u (List.mem_cons_self _ _)
      simp only [wordsVal] at hv
      have hwu : w = u ∧ wordsVal ws = wordsVal us := by omega
      have hrest := ih us (by simpa using hlen)
        (fun x hx => hb1 x (List.mem_cons_of_mem _ hx))
        (fun x hx => hb2 x (List.mem_cons_of_mem _ hx)) hwu.2
      rw [hwu.1, hrest]

theorem sha256words_val_lt (m : List Nat) :
    wordsVal (sha256words m) < (2 ^ 32) ^ 8 := by
  have hlt := wordsVal_lt (sha256words m) (sha256words_mem_lt m)
  rwa [sha256words_length] at hlt

theorem sha256FinOf_val (c p : Str) :
    (sha256FinOf c p).val
      = wordsVal (sha256words (utf8Encode (p ++ c))) := by
  unfold sha256FinOf
  exact Nat.mod_eq_of_lt (sha256words_val_lt _)

/-! The ten claims. -/

/-- Claim C1: `is_valid_diagram(p)` is true iff `p`, after trimming
surrounding whitespace, begins with "flowchart TD" or with
"sequenceDiagram" and does not contain the substring "Default Diagram";
in particular it is false whenever `p` is empty or whitespace-only. -/
theorem C1_is_valid_mermaid_characterisation (p : Str) :
    (is_valid_mermaid p = true ↔ diagramValidSpec p)
      ∧ ((∀ c ∈ p, isPySpace c) → is_valid_mermaid p = false) := by
  constructor
  · unfold is_valid_mermaid diagramValidSpec
    rw [← containsSub_iff]
    simp only [Bool.and_eq_true, Bool.or_eq_true, Bool.not_eq_true',
      List.isPrefixOf_iff_prefix, Bool.not_eq_true]
  · intro h
    have hnil := pyStrip_of_all_space p h
    unfold is_valid_mermaid
    rw [hnil]
    rfl

/-- Witness for C1 at the whitespace-only input `" \n "`. -/
theorem C1_witness : is_valid_mermaid (" \n ".toList) = false :=
  (C1_is_valid_mermaid_characterisation (" \n ".toList)).2 (by decide)

/-- Counterexample to C7 as stated: on a successful response the
Gateway does not return the generated text verbatim — it strips
surrounding whitespace (source line 129), so generated text `" x "`
comes back as `"x"`. -/
theorem C7_counterexample :
    call_llm (fun _ _ => LLMResult.response 200 (" x ".toList)) [] [] ≠ " x ".toList := by
  decide

/-- Claim C7 (amended): the Gateway never lets an exception escape — it
is a total function into strings — returning the empty string on a
transport error or a non-200 status, and the generated text trimmed of
surrounding whitespace on a 200 response. -/
theorem C7_call_llm_total (gw : Gateway) (model prompt : Str) :
    (gw model prompt = LLMResult.transportError → call_llm gw model prompt = [])
      ∧ (∀ status text, gw model prompt = LLMResult.response status text →
          status ≠ 200 → call_llm gw model prompt = [])
      ∧ (∀ text, gw model prompt = LLMResult.response 200 text →
          call_llm gw model prompt = pyStrip text) := by
  refine ⟨fun h => ?_, fun status text h hs => ?_, fun text h => ?_⟩
  · simp [call_llm, h]
  · simp [call_llm, h, hs]
  · simp [call_llm, h]

/-- Witness for C7 at a concrete failing gateway. -/
theorem C7_witness :
    call_llm (fun _ _ => LLMResult.transportError) [] [] = [] :=
  (C7_call_llm_total (fun _ _ => LLMResult.transportError) [] []).1 rfl

/-- Claim C5: each diagram-kind phase generator returns either a string
passing the validator (with no substitution flagged) or exactly the
fixed placeholder diagram with the substitution flagged. -/
theorem C5_diagram_generators_valid_or_placeholder (gw : Gateway) (cfg : Config)
    (journey_report functions_report : Str) :
    ((is_valid_mermaid (generate_journey_diagram gw cfg journey_report).1 = true
        ∧ (generate_journey_diagram gw cfg journey_report).2 = false)
      ∨ ((generate_journey_diagram gw cfg journey_report).1 = DEFAULT_JOURNEY_DIAGRAM
        ∧ (generate_journey_diagram gw cfg journey_report).2 = true))
    ∧ ((is_valid_mermaid (generate_call_diagram gw cfg functions_report).1 = true
        ∧ (generate_call_diagram gw cfg functions_report).2 = false)
      ∨ ((generate_call_diagram gw cfg functions_report).1 = DEFAULT_CALL_DIAGRAM
        ∧ (generate_call_diagram gw cfg functions_report).2 = true)) := by
  constructor
  · unfold generate_journey_diagram
    by_cases h : is_valid_mermaid (call_llm gw cfg.analysis_model
        (generate_journey_diagram_prompt journey_report)) = true
    · left; simp [h]
    · right; simp [h]
  · unfold generate_call_diagram
    by_cases h : is_valid_mermaid (call_llm gw cfg.analysis_model
        (generate_call_diagram_prompt functions_report)) = true
    · left; simp [h]
    · right; simp [h]

/-- Counterexample to C3 as stated: a contract whose source text is the
empty string is abandoned at source lines 546-548 and produces no
artifacts at all, not four placeholder artifacts. -/
theorem C3_counterexample :
    process_contract (fun _ _ => LLMResult.transportError)
      (Config.mk ("deepseek-r1").toList ("deepseek-r1").toList)
      ("Vault").toList [] = none := rfl

/-- Claim C3 (amended): for every contract whose source text is
non-empty — including whitespace-only text — the pipeline produces the
four artifacts and a combined report containing all four as substrings;
a contract with empty source text is abandoned with no artifacts. -/
theorem C3_pipeline_totality (gw : Gateway) (cfg : Config)
    (base_name content : Str) (h : content ≠ []) :
    ∃ a : Artifacts, process_contract gw cfg base_name content = some a
      ∧ a.functions_report <:+: a.final_report
      ∧ a.journey_report <:+: a.final_report
      ∧ a.journey_diagram <:+: a.final_report
      ∧ a.call_diagram <:+: a.final_report := by
  refine ⟨_, by unfold process_contract; rw [if_neg h], ?_, ?_, ?_, ?_⟩
  all_goals
    unfold final_report_text
    simp only [List.append_assoc]
    repeat
      first
        | exact isInfix_self_append _ _
        | apply isInfix_append_left

/-- Witness for C3 at a concrete contract with a one-character source. -/
theorem C3_witness :
    ∃ a : Artifacts,
      process_contract (fun _ _ => LLMResult.transportError)
        (Config.mk ("deepseek-r1").toList ("deepseek-r1").toList)
        ("Vault").toList ("x").toList = some a
      ∧ a.functions_report <:+: a.final_report
      ∧ a.journey_report <:+: a.final_report
      ∧ a.journey_diagram <:+: a.final_report
      ∧ a.call_diagram <:+: a.final_report :=
  C3_pipeline_totality (fun _ _ => LLMResult.transportError)
    (Config.mk ("deepseek-r1").toList ("deepseek-r1").toList)
    ("Vault").toList ("x").toList (by decide)

/-- Claim C6: when the Gateway returns the empty string on every call,
a pipeline run (non-empty source) completes and every artifact takes
its fixed fallback value. -/
theorem C6_all_empty_gateway_fallbacks (gw : Gateway) (cfg : Config)
    (base_name content : Str)
    (hgw : ∀ model prompt, call_llm gw model prompt = [])
    (h : content ≠ []) :
    ∃ a : Artifacts, process_contract gw cfg base_name content = some a
      ∧ a.functions_report = ("[No functions report produced]").toList
      ∧ a.journey_report = ("[No journey report produced]").toList
      ∧ a.journey_diagram = DEFAULT_JOURNEY_DIAGRAM
      ∧ a.call_diagram = DEFAULT_CALL_DIAGRAM := by
  refine ⟨_, by unfold process_contract; rw [if_neg h], ?_, ?_, ?_, ?_⟩
  · simp [generate_functions_report, hgw]
  · simp [generate_journey_report, hgw]
  · simp [generate_journey_diagram, hgw, is_valid_mermaid, pyStrip, containsSub]
  · simp [generate_call_diagram, hgw, is_valid_mermaid, pyStrip, containsSub]

/-- Witness for C6 at a concrete always-failing gateway. -/
theorem C6_witness :
    ∃ a : Artifacts,
      process_contract (fun _ _ => LLMResult.transportError)
        (Config.mk ("deepseek-r1").toList ("deepseek-r1").toList)
        ("Vault").toList ("contract C ...").toList = some a
      ∧ a.functions_report = ("[No functions report produced]").toList
      ∧ a.journey_report = ("[No journey report produced]").toList
      ∧ a.journey_diagram = DEFAULT_JOURNEY_DIAGRAM
      ∧ a.call_diagram = DEFAULT_CALL_DIAGRAM :=
  C6_all_empty_gateway_fallbacks (fun _ _ => LLMResult.transportError)
    (Config.mk ("deepseek-r1").toList ("deepseek-r1").toList)
    ("Vault").toList ("contract C ...").toList (fun _ _ => rfl) (by decide)

/-- Counterexample to C2 as stated: the repair-time regeneration
prompts embed the raw contract source under a "Smart Contract Code"
header — the regeneration functions never read the persisted
FunctionsReport or JourneyReport at all (source lines 144-209 and
403-414, 427-437). -/
theorem C2_counterexample :
    (("contract C").toList <:+: regenerate_journey_diagram_prompt (("contract C").toList))
      ∧ (("contract C").toList <:+: regenerate_call_diagram_prompt (("contract C").toList))
      ∧ (check_and_regenerate_diagrams (fun _ _ => LLMResult.transportError)
            (Config.mk ("deepseek-r1").toList ("deepseek-r1").toList)
            (RepairEnv.mk (some []) (some []) (some (("contract C").toList)) true true)).1
          = some (regenerate_journey_diagram_from_contract
              (fun _ _ => LLMResult.transportError)
              (Config.mk ("deepseek-r1").toList ("deepseek-r1").toList)
              (("contract C").toList)) := by
  refine ⟨?_, ?_, ?_⟩
  · unfold regenerate_journey_diagram_prompt
    simp only [List.append_assoc]
    repeat
      first
        | exact isInfix_self_append _ _
        | apply isInfix_append_left
  · unfold regenerate_call_diagram_prompt
    simp only [List.append_assoc]
    repeat
      first
        | exact isInfix_self_append _ _
        | apply isInfix_append_left
  · decide

/-- Claim C2 (amended): whenever the repair path regenerates a diagram,
the regeneration prompt is built from the currently persisted raw
contract source (read from the `_original.sol` file) embedded under a
"Smart Contract Code" header; the persisted upstream reports are not
consulted. -/
theorem C2_regeneration_context (gw : Gateway) (cfg : Config)
    (env : RepairEnv) (sc : Str) (hsc : env.sc_file = some sc)
    (hj : journey_needs_regen env = true) (hjc : env.regen_jd_choice = true)
    (hc : call_needs_regen env = true) (hcc : env.regen_cd_choice = true) :
    ((check_and_regenerate_diagrams gw cfg env).1
        = some (call_llm gw cfg.analysis_model (regenerate_journey_diagram_prompt sc)))
      ∧ ((check_and_regenerate_diagrams gw cfg env).2
        = some (call_llm gw cfg.analysis_model (regenerate_call_diagram_prompt sc)))
      ∧ sc <:+: regenerate_journey_diagram_prompt sc
      ∧ SC_HDR <:+: regenerate_journey_diagram_prompt sc
      ∧ sc <:+: regenerate_call_diagram_prompt sc
      ∧ SC_HDR <:+: regenerate_call_diagram_prompt sc := by
  refine ⟨?_, ?_, ?_, ?_, ?_, ?_⟩
  · simp [check_and_regenerate_diagrams, hj, hjc, hsc,
      regenerate_journey_diagram_from_contract]
  · simp [check_and_regenerate_diagrams, hc, hcc, hsc,
      regenerate_call_diagram_from_contract]
  all_goals
    first
      | unfold regenerate_journey_diagram_prompt
      | unfold regenerate_call_diagram_prompt
  all_goals
    simp only [List.append_assoc]
    repeat
      first
        | exact isInfix_self_append _ _
        | apply isInfix_append_left

/-- Witness for C2 at a concrete repair state with invalid diagrams. -/
theorem C2_witness :
    ((check_and_regenerate_diagrams (fun _ _ => LLMResult.transportError)
        (Config.mk ("deepseek-r1").toList ("deepseek-r1").toList)
        (RepairEnv.mk (some []) (some []) (some (("contract X").toList)) true true)).1
      = some (call_llm (fun _ _ => LLMResult.transportError)
          (Config.mk ("deepseek-r1").toList ("deepseek-r1").toList).analysis_model
          (regenerate_journey_diagram_prompt (("contract X").toList))))
    ∧ ((check_and_regenerate_diagrams (fun _ _ => LLMResult.transportError)
        (Config.mk ("deepseek-r1").toList ("deepseek-r1").toList)
        (RepairEnv.mk (some []) (some []) (some (("contract X").toList)) true true)).2
      = some (call_llm (fun _ _ => LLMResult.transportError)
          (Config.mk ("deepseek-r1").toList ("deepseek-r1").toList).analysis_model
          (regenerate_call_diagram_prompt (("contract X").toList))))
    ∧ ("contract X").toList <:+: regenerate_journey_diagram_prompt (("contract X").toList)
    ∧ SC_HDR <:+: regenerate_journey_diagram_prompt (("contract X").toList)
    ∧ ("contract X").toList <:+: regenerate_call_diagram_prompt (("contract X").toList)
    ∧ SC_HDR <:+: regenerate_call_diagram_prompt (("contract X").toList) :=
  C2_regeneration_context (fun _ _ => LLMResult.transportError)
    (Config.mk ("deepseek-r1").toList ("deepseek-r1").toList)
    (RepairEnv.mk (some []) (some []) (some (("contract X").toList)) true true)
    (("contract X").toList) rfl (by decide) rfl (by decide) rfl

/-- Counterexample to C4 as stated: with an invalid persisted journey
diagram, a consenting user and a gateway whose call fails, the repair
path saves the empty regeneration output over the prior artifact — an
invalid regeneration result silently replaces it. -/
theorem C4_counterexample :
    ((check_and_regenerate_diagrams (fun _ _ => LLMResult.transportError)
        (Config.mk ("deepseek-r1").toList ("deepseek-r1").toList)
        (RepairEnv.mk (some (("garbage").toList)) (some (("garbage").toList))
          (some (("contract C").toList)) true true)).1 = some [])
      ∧ is_valid_mermaid [] = false
      ∧ some ([] : Str) ≠ some (("garbage").toList) := by
  refine ⟨by decide, by decide, by decide⟩

/-- Claim C4 (amended): each diagram is either left unchanged by the
repair pass, or overwritten by the raw regeneration output — which is
persisted as-is with no re-validation and may itself be invalid. -/
theorem C4_repair_overwrite_behaviour (gw : Gateway) (cfg : Config)
    (env : RepairEnv) :
    (((check_and_regenerate_diagrams gw cfg env).1 = env.jd_file)
      ∨ (∃ sc, env.sc_file = some sc
          ∧ (check_and_regenerate_diagrams gw cfg env).1
            = some (regenerate_journey_diagram_from_contract gw cfg sc)))
    ∧ (((check_and_regenerate_diagrams gw cfg env).2 = env.cd_file)
      ∨ (∃ sc, env.sc_file = some sc
          ∧ (check_and_regenerate_diagrams gw cfg env).2
            = some (regenerate_call_diagram_from_contract gw cfg sc))) := by
  constructor
  · by_cases h : (journey_needs_regen env && env.regen_jd_choice) = true
    · cases hsc : env.sc_file with
      | none => left; simp [check_and_regenerate_diagrams, h, hsc]
      | some sc => right; exact ⟨sc, rfl, by simp [check_and_regenerate_diagrams, h, hsc]⟩
    · left; simp [check_and_regenerate_diagrams, h]
  · by_cases h : (call_needs_regen env && env.regen_cd_choice) = true
    · cases hsc : env.sc_file with
      | none => left; simp [check_and_regenerate_diagrams, h, hsc]
      | some sc => right; exact ⟨sc, rfl, by simp [check_and_regenerate_diagrams, h, hsc]⟩
    · left; simp [check_and_regenerate_diagrams, h]

/-- Claim C10: the fixed placeholder diagram itself fails the
validator (it contains the sentinel "Default Diagram"), so a persisted
placeholder is always classified invalid by the integrity check and
offered for regeneration. -/
theorem C10_placeholder_always_offered :
    is_valid_mermaid DEFAULT_JOURNEY_DIAGRAM = false
      ∧ is_valid_mermaid DEFAULT_CALL_DIAGRAM = false
      ∧ (∀ env : RepairEnv, env.jd_file = some DEFAULT_JOURNEY_DIAGRAM →
          journey_needs_regen env = true)
      ∧ (∀ env : RepairEnv, env.cd_file = some DEFAULT_CALL_DIAGRAM →
          call_needs_regen env = true) := by
  refine ⟨by decide, by decide, ?_, ?_⟩
  · intro env h
    unfold journey_needs_regen jd_content
    rw [h]
    decide
  · intro env h
    unfold call_needs_regen cd_content
    rw [h]
    decide

/-- Witness for C10 at a concrete repair state holding the placeholder. -/
theorem C10_witness :
    journey_needs_regen
      (RepairEnv.mk (some DEFAULT_JOURNEY_DIAGRAM) (some []) none false false)
      = true :=
  C10_placeholder_always_offered.2.2.1
    (RepairEnv.mk (some DEFAULT_JOURNEY_DIAGRAM) (some []) none false false) rfl

set_option maxRecDepth 40000 in
/-- Counterexample to C9 as stated: when every context file fails to
load, the assembled prompt nowhere contains the fixed placeholder
"[not available]" — the source substitutes the piece-specific strings
"[Original code not available]", "[Journey diagram not available]" and
"[Call diagram not available]" instead. -/
theorem C9_counterexample :
    (query_report (fun _ _ => LLMResult.transportError)
        (Config.mk ("deepseek-r1").toList ("qwen2.5-coder:3b").toList)
        (("r").toList) none none none (("q").toList)
      = call_llm (fun _ _ => LLMResult.transportError)
          (("qwen2.5-coder:3b").toList)
          (query_prompt (("r").toList) (("[Original code not available]").toList)
            (("[Journey diagram not available]").toList)
            (("[Call diagram not available]").toList) (("q").toList)))
      ∧ containsSub (("[not available]").toList)
          (query_prompt (("r").toList) (("[Original code not available]").toList)
            (("[Journey diagram not available]").toList)
            (("[Call diagram not available]").toList) (("q").toList)) = false := by
  exact ⟨rfl, by decide⟩

/-- Claim C9 (amended): the query prompt concatenates, in fixed order,
the target report, the raw source, the journey diagram, the call
diagram and the question; a context file that fails to load is replaced
by its piece-specific placeholder; the call uses the query model and
the answer is returned verbatim with no post-validation. -/
theorem C9_query_assembly (gw : Gateway) (cfg : Config)
    (report_content query : Str) (original jd cd : Option Str) :
    (query_report gw cfg report_content original jd cd query
      = call_llm gw cfg.query_model
          (query_prompt report_content
            (original.getD (("[Original code not available]").toList))
            (jd.getD (("[Journey diagram not available]").toList))
            (cd.getD (("[Call diagram not available]").toList)) query))
      ∧ report_content <:+: query_prompt report_content
          (original.getD (("[Original code not available]").toList))
          (jd.getD (("[Journey diagram not available]").toList))
          (cd.getD (("[Call diagram not available]").toList)) query
      ∧ (original.getD (("[Original code not available]").toList))
          <:+: query_prompt report_content
            (original.getD (("[Original code not available]").toList))
            (jd.getD (("[Journey diagram not available]").toList))
            (cd.getD (("[Call diagram not available]").toList)) query
      ∧ query <:+: query_prompt report_content
          (original.getD (("[Original code not available]").toList))
          (jd.getD (("[Journey diagram not available]").toList))
          (cd.getD (("[Call diagram not available]").toList)) query := by
  refine ⟨rfl, ?_, ?_, ?_⟩
  all_goals
    unfold query_prompt
    simp only [List.append_assoc]
    repeat
      first
        | exact isInfix_self_append _ _
        | apply isInfix_append_left

/-- Counterexample to C8 as stated: SHA-256 maps the infinitely many
file paths into a finite digest space, so for some content there exist
two distinct paths whose fingerprints coincide — universal fingerprint
distinctness is mathematically false (pigeonhole). -/
theorem C8_counterexample :
    ¬ (∀ c p₁ p₂ : Str, p₁ ≠ p₂ →
        contract_fingerprint p₁ c ≠ contract_fingerprint p₂ c) := by
  intro hclaim
  obtain ⟨p₁, p₂, hne, heq⟩ :=
    Finite.exists_ne_map_eq_of_infinite (sha256FinOf [])
  apply hclaim [] p₁ p₂ hne
  have hval := congrArg Fin.val heq
  rw [sha256FinOf_val, sha256FinOf_val] at hval
  have hwords := wordsVal_inj _ _
    (by rw [sha256words_length, sha256words_length])
    (sha256words_mem_lt _) (sha256words_mem_lt _) hval
  unfold contract_fingerprint
  rw [hwords]

set_option maxRecDepth 100000 in
set_option maxHeartbeats 8000000 in
/-- Claim C8 (amended): the fingerprint is a deterministic function of
the pair (path, content); two contracts with identical content and
different paths always have different hash preimages (the concatenation
`path ++ content` is injective in the path), and in the concrete
scenario of paths "a.sol" and "b.sol" with equal content the SHA-256
fingerprints are indeed different — though distinctness for all such
pairs cannot hold, SHA-256 not being injective. -/
theorem C8_fingerprint_path_sensitive :
    (∀ p₁ p₂ c : Str, p₁ ≠ p₂ → p₁ ++ c ≠ p₂ ++ c)
      ∧ contract_fingerprint ("a.sol").toList ("contract C").toList
          ≠ contract_fingerprint ("b.sol").toList ("contract C").toList := by
  constructor
  · intro p₁ p₂ c hne h
    exact hne (List.append_cancel_right h)
  · decide

/-- Witness for C8 at the two concrete paths. -/
theorem C8_witness :
    ("a.sol").toList ++ ("contract C").toList
      ≠ ("b.sol").toList ++ ("contract C").toList :=
  C8_fingerprint_path_sensitive.1 ("a.sol").toList ("b.sol").toList
    ("contract C").toList (by decide)

end DeepCurrent
